import Mathlib

/-!
Verification development for a small retrieval-augmented-generation (RAG)
chat application.  The pipeline under study lives in `rag_methods.py`
(document loading, FAISS index construction, persistence and retrieval,
answer composition) and `app.py` (chat input handler, API-key validation,
message-limit bookkeeping).  Pure functions are embedded directly; the
external collaborators (filesystem, PDF parser, web fetcher, embedding
service, language model) are explicit parameters, so every definition is
executable.
-/

/-- Document representation used by the loader library: `page_content` plus a
string-to-string metadata mapping. -/
structure Document where
  page_content : String
  metadata : List (String × String)
deriving DecidableEq, Repr

/-- Index of the last occurrence of a character in a character list
(Python `str.rfind`, as an `Option`). -/
def rfindChar (l : List Char) (c : Char) : Option Nat :=
  ((l.enum.filter (fun p => p.2 == c)).getLast?).map (fun p => p.1)

/-- Extension part of `os.path.splitext(path)[1]` (POSIX rules): the suffix
starting at the last dot of the final path component, except that a basename
consisting only of leading dots before that dot has no extension. -/
def splitext_ext (p : String) : String :=
  let l := p.toList
  let start := match rfindChar l '/' with
    | some i => i + 1
    | none => 0
  match rfindChar l '.' with
  | none => ""
  | some dotIndex =>
    if start ≤ dotIndex then
      if ((l.drop start).take (dotIndex - start)).all (fun c => c == '.') then ""
      else String.mk (l.drop dotIndex)
    else ""

/-- Python `str.lower()` (ASCII case folding, characterwise). -/
def pyLower (s : String) : String :=
  String.mk (s.toList.map Char.toLower)

/-- Lower-cased extension of a path: `os.path.splitext(path)[1].lower()`. -/
def extLower (p : String) : String :=
  pyLower (splitext_ext p)

/-- External-world interface of `load_documents`: the text-file contents seen
by `TextLoader`, and the results of `PyPDFLoader.load` and
`WebBaseLoader.load`, each of which may raise. -/
structure LoadEnv where
  fs : String → Option String
  pdfLoad : String → Except String (List Document)
  webLoad : String → Except String (List Document)

/-- Behaviour of langchain `TextLoader(path).load()`: one `Document` whose
`page_content` is the raw file content, with the source path in metadata;
raises when the file cannot be read. -/
def TextLoader.load (fs : String → Option String) (path : String) :
    Except String (List Document) :=
  match fs path with
  | some content => .ok [{ page_content := content, metadata := [("source", path)] }]
  | none => .error ("file not found: " ++ path)

/-- Dispatch of `load_documents` on one file path (lines 31-39 of
`rag_methods.py`): `.pdf` → PDF loader, `.txt` → text loader, anything else
is skipped (`continue`), here `none`. -/
def loadPath (env : LoadEnv) (path : String) : Option (Except String (List Document)) :=
  let ext := extLower path
  if ext == ".pdf" then some (env.pdfLoad path)
  else if ext == ".txt" then some (TextLoader.load env.fs path)
  else none

/-- File-loop of `load_documents`: each supported path's documents are
appended in order; a loader error propagates (there is no try/except). -/
def loadFiles (env : LoadEnv) : List String → Except String (List Document)
  | [] => .ok []
  | p :: ps =>
    match loadPath env p with
    | none => loadFiles env ps
    | some r =>
      match r with
      | .error e => .error e
      | .ok ds =>
        match loadFiles env ps with
        | .error e => .error e
        | .ok rest => .ok (ds ++ rest)

/-- Link-loop of `load_documents`: every link goes through `WebBaseLoader`;
errors propagate. -/
def loadLinks (env : LoadEnv) : List String → Except String (List Document)
  | [] => .ok []
  | l :: ls =>
    match env.webLoad l with
    | .error e => .error e
    | .ok ds =>
      match loadLinks env ls with
      | .error e => .error e
      | .ok rest => .ok (ds ++ rest)

/-- Embedding of `load_documents(file_paths, links)` from `rag_methods.py`
lines 26-43: load the files in order, then the links, concatenating all
resulting documents. -/
def load_documents (env : LoadEnv) (file_paths : List String) (links : List String) :
    Except String (List Document) :=
  match loadFiles env file_paths with
  | .error e => .error e
  | .ok fdocs =>
    match loadLinks env links with
    | .error e => .error e
    | .ok ldocs => .ok (fdocs ++ ldocs)

/-- Language-model values that can be handed to `answer_with_rag`.  The code
distinguishes them only by `isinstance(llm, ChatGoogleGenerativeAI)`;
`OpenAI(temperature=0)` is the default when none is supplied. -/
inductive LLM where
  | chatGoogleGenerativeAI
  | openAI (temperature : Int)
  | other (name : String)
deriving DecidableEq, Repr

/-- A retriever is query → relevant documents (`get_relevant_documents`). -/
def Retriever : Type := String → List Document

/-- Context built by `answer_with_rag` (lines 70-73 of `rag_methods.py`):
`"\n\n".join([doc.page_content for doc in relevant_docs])` over the
documents returned by the retriever. -/
def rag_context (retriever : Retriever) (query : String) : String :=
  String.intercalate "\n\n" ((retriever query).map Document.page_content)

/-- Embedding of `answer_with_rag(query, retriever, llm)`.  The
`RetrievalQA.from_chain_type(llm, retriever=retriever).run(query)` call is an
external collaborator, passed in as `qaRun`.  A `none` llm defaults to
`OpenAI(temperature=0)`; a `ChatGoogleGenerativeAI` llm gets the raw context
back, every other llm goes through the QA chain. -/
def answer_with_rag (qaRun : LLM → Retriever → String → String)
    (query : String) (retriever : Retriever) (llm : Option LLM) : String :=
  let llm := llm.getD (LLM.openAI 0)
  let context := rag_context retriever query
  match llm with
  | LLM.chatGoogleGenerativeAI => context
  | _ => qaRun llm retriever query

/-- Google embeddings client as constructed in `rag_methods.py`: only the
model name is configuration. -/
structure GoogleGenerativeAIEmbeddings where
  model : String
deriving DecidableEq, Repr

/-- External embedding service: model name and text to a vector.  Vectors are
integer lists (the reals of the real service are irrelevant to the claims,
which only need a deterministic metric space). -/
structure EmbedEnv where
  googleEmbed : String → String → List Int

/-- In-memory FAISS store: the embeddings client it was built with and the
(vector, document) pairs in insertion order. -/
structure FAISSIndex where
  embeddings : GoogleGenerativeAIEmbeddings
  entries : List (List Int × Document)

/-- Squared L2 distance between two vectors. -/
def dist2 (u v : List Int) : Int :=
  (List.zipWith (fun a b => (a - b) * (a - b)) u v).sum

/-- Behaviour of `FAISS.from_documents(documents, embeddings)`: embed each
document's text and store the pairs in document order. -/
def FAISS.from_documents (env : EmbedEnv) (documents : List Document)
    (embeddings : GoogleGenerativeAIEmbeddings) : FAISSIndex :=
  { embeddings := embeddings,
    entries := documents.map
      (fun d => (env.googleEmbed embeddings.model d.page_content, d)) }

/-- Embedding of `create_faiss_index(documents)` (lines 45-54): build the
Google embeddings client with model `"models/embedding-001"` and call
`FAISS.from_documents`. -/
def create_faiss_index (env : EmbedEnv) (documents : List Document) : FAISSIndex :=
  let embeddings : GoogleGenerativeAIEmbeddings := { model := "models/embedding-001" }
  FAISS.from_documents env documents embeddings

/-- Nearest-neighbour search of the FAISS store: embed the query with the
store's embeddings client and return the `k` stored documents of smallest
squared distance, closest first. -/
def FAISS.similarity_search (env : EmbedEnv) (idx : FAISSIndex)
    (query : String) (k : Nat) : List Document :=
  let qv := env.googleEmbed idx.embeddings.model query
  ((List.insertionSort (fun a b => dist2 qv a.1 ≤ dist2 qv b.1) idx.entries).take k).map
    (fun e => e.2)

/-- Embedding of `get_retriever(faiss_index)` (lines 56-60):
`faiss_index.as_retriever()` with the library default of 4 results. -/
def get_retriever (env : EmbedEnv) (faiss_index : FAISSIndex) : Retriever :=
  fun query => FAISS.similarity_search env faiss_index query 4

/-- On-disk state: a directory either holds a serialized store (its entries)
or does not exist. -/
def Disk : Type := String → Option (List (List Int × Document))

/-- Embedding of `save_faiss_index(faiss_index, index_dir)` (lines 83-96):
write the serialized entries under `index_dir` and return the directory. -/
def save_faiss_index (disk : Disk) (faiss_index : FAISSIndex)
    (index_dir : String) : Disk × String :=
  (fun d => if d == index_dir then some faiss_index.entries else disk d, index_dir)

/-- Embedding of `load_faiss_index(directory)` (lines 98-116): `None` when
the directory does not exist, otherwise `FAISS.load_local` with a fresh
`GoogleGenerativeAIEmbeddings(model="models/embedding-001")` client. -/
def load_faiss_index (disk : Disk) (directory : String) :
    Option FAISSIndex :=
  match disk directory with
  | none => none
  | some entries =>
    some { embeddings := { model := "models/embedding-001" }, entries := entries }

/-- Role field of a stored chat message. -/
inductive Role where
  | user
  | assistant
deriving DecidableEq, Repr

/-- One entry of `st.session_state.messages`. -/
structure ChatMsg where
  role : Role
  content : String
deriving DecidableEq, Repr

/-- Langchain message values built by the handler. -/
inductive LCMessage where
  | human (content : String)
  | ai (content : String)
deriving DecidableEq, Repr

/-- Initial assistant greeting, as inlined in `app.py`. -/
def default_greeting : ChatMsg :=
  { role := Role.assistant,
    content := "Hello! I am your AI assistant. How can I help you today?" }

/-- Maximum number of messages before auto-clearing chat (`app.py` line 17). -/
def MAX_MESSAGES : Nat := 100

/-- Embedding of `check_message_limit()` (`app.py` lines 52-63), with the
session message list made explicit: when the list has reached
`MAX_MESSAGES` entries it is replaced by the singleton holding its first
message (or the default greeting when empty) and `True` is returned;
otherwise the list is untouched and `False` is returned. -/
def check_message_limit (messages : List ChatMsg) : List ChatMsg × Bool :=
  if MAX_MESSAGES ≤ messages.length then
    let initial_message := messages.headD default_greeting
    ([initial_message], true)
  else (messages, false)

/-- Containment of `pat` as a prefix of `s` (on character lists). -/
def charsStartWith : List Char → List Char → Bool
  | _, [] => true
  | [], _ :: _ => false
  | a :: as, b :: bs => a == b && charsStartWith as bs

/-- Containment of `pat` as a contiguous substring of `s` (Python `pat in s`
on character lists). -/
def charsContain : List Char → List Char → Bool
  | [], pat => pat.isEmpty
  | s@(_ :: rest), pat => charsStartWith s pat || charsContain rest pat

/-- Python `pat in s` on strings. -/
def strContains (s pat : String) : Bool :=
  charsContain s.toList pat.toList

/-- Embedding of `validate_api_key(api_key)` (`app.py` lines 69-90), with the
outcome of the test `invoke` call made explicit: on success report validity;
on an exception classify by substring search over the lower-cased error
text. -/
def validate_api_key (testCall : Except String Unit) : Bool × String :=
  match testCall with
  | .ok _ => (true, "API key is valid")
  | .error e =>
    let error_msg := e
    if strContains (pyLower error_msg) "auth" || strContains (pyLower error_msg) "api key" ||
        strContains (pyLower error_msg) "apikey" || strContains (pyLower error_msg) "credential" ||
        strContains (pyLower error_msg) "permission" then
      (false, "Invalid API key - Authentication failed")
    else
      (false, "API connection error: " ++ error_msg)

/-- Python `l[-2:]`: the last two elements (or all of them when fewer). -/
def pyLastTwo (l : List α) : List α :=
  l.drop (l.length - 2)

/-- Conversion used by the fallback paths:
`HumanMessage(content=m["content"]) if m["role"] == "user" else AIMessage(...)`. -/
def toLCMessage (m : ChatMsg) : LCMessage :=
  match m.role with
  | Role.user => LCMessage.human m.content
  | Role.assistant => LCMessage.ai m.content

/-- The `rag_prompt` f-string of `app.py` lines 316-322 (triple-quoted, so
the surrounding indentation is part of the text). -/
def rag_prompt_template (rag_response prompt : String) : String :=
  "\n                    Based on the retrieved information: \n                    \n                    "
    ++ rag_response
    ++ "\n                    \n                    Answer the following question: " ++ prompt
    ++ "\n                    "

/-- Result of one `llm_stream.stream(messages)` call: the chunks yielded
before the call either finishes (`error = none`) or raises mid-stream
(`error = some e`, after the listed chunks). -/
structure StreamOut where
  chunks : List String
  error : Option String
deriving DecidableEq, Repr

/-- Per-turn observable outcome of the chat input handler: the final
`full_response`, the errors shown via `st.error`, and the resulting message
list. -/
structure HandlerResult where
  full_response : String
  errors : List String
  messages : List ChatMsg
deriving DecidableEq, Repr

/-- Session state consulted by the chat input handler. -/
structure SessionState where
  use_rag : Bool
  retriever : Option Retriever
  messages : List ChatMsg

/-- Body of the `try:` block of the RAG branch (`app.py` lines 311-330):
call `answer_with_rag`, build the RAG prompt, stream it.  On an exception it
produces the error together with the `full_response` accumulated so far
(the variable is NOT reset by the exception). -/
def rag_try (answerRag : String → Retriever → Except String String)
    (llmStream : List LCMessage → StreamOut)
    (retriever : Retriever) (prompt : String) : Except (String × String) String :=
  match answerRag prompt retriever with
  | .error e => .error (e, "")
  | .ok rag_response =>
    let out := llmStream [LCMessage.human (rag_prompt_template rag_response prompt)]
    let full := String.join out.chunks
    match out.error with
    | some e => .error (e, full)
    | none => .ok full

/-- Embedding of the chat input handler (`app.py` lines 297-358).  The
`answer_with_rag` call and the streaming model are external collaborators.
The user prompt is appended, then either the RAG branch (with its
try/except and streaming fallback over the last two messages) or the plain
branch runs; the assistant reply is appended and `check_message_limit`
runs.  An exception that no handler catches surfaces as `.error`. -/
def chat_input_handler (answerRag : String → Retriever → Except String String)
    (llmStream : List LCMessage → StreamOut)
    (st : SessionState) (prompt : String) : Except String HandlerResult :=
  let messages1 := st.messages ++ [{ role := Role.user, content := prompt }]
  match st.use_rag, st.retriever with
  | true, some retriever =>
    match rag_try answerRag llmStream retriever prompt with
    | .ok full =>
      .ok { full_response := full, errors := [],
            messages := (check_message_limit
              (messages1 ++ [{ role := Role.assistant, content := full }])).1 }
    | .error (e, partialResp) =>
      let recent_messages := pyLastTwo messages1
      let out := llmStream (recent_messages.map toLCMessage)
      let full := partialResp ++ String.join out.chunks
      match out.error with
      | some e2 => .error e2
      | none =>
        .ok { full_response := full, errors := ["Error using RAG: " ++ e],
              messages := (check_message_limit
                (messages1 ++ [{ role := Role.assistant, content := full }])).1 }
  | _, _ =>
    let recent_messages := pyLastTwo messages1
    let out := llmStream (recent_messages.map toLCMessage)
    match out.error with
    | some e => .error e
    | none =>
      let full := String.join out.chunks
      .ok { full_response := full, errors := [],
            messages := (check_message_limit
              (messages1 ++ [{ role := Role.assistant, content := full }])).1 }

/-- Retriever installation at session start (`app.py` lines 157-163): only
when the index directory exists is `load_faiss_index` called and, when it
returns a store, a retriever put into the session. -/
def install_retriever (env : EmbedEnv) (disk : Disk) (dir : String)
    (st : SessionState) : SessionState :=
  if (disk dir).isSome then
    match load_faiss_index disk dir with
    | some idx => { st with retriever := some (get_retriever env idx) }
    | none => st
  else st

/-- Spec-side predicate: the path's lower-cased extension is one the loader
supports. -/
def supported (p : String) : Bool :=
  extLower p == ".pdf" || extLower p == ".txt"

/-- File loop on an all-`.txt` batch of readable files: one document per
path, in order, text equal to the file content. -/
theorem loadFiles_txt (env : LoadEnv) (paths : List String) (contents : String → String)
    (hext : ∀ p ∈ paths, extLower p = ".txt")
    (hfs : ∀ p ∈ paths, env.fs p = some (contents p)) :
    loadFiles env paths =
      .ok (paths.map fun p =>
        { page_content := contents p, metadata := [("source", p)] }) := by
  induction paths with
  | nil => rfl
  | cons p ps ih =>
    have hp := hext p (List.mem_cons_self p ps)
    have hfp := hfs p (List.mem_cons_self p ps)
    have ihh := ih (fun q hq => hext q (List.mem_cons_of_mem p hq))
      (fun q hq => hfs q (List.mem_cons_of_mem p hq))
    simp [loadFiles, loadPath, hp, TextLoader.load, hfp, ihh]

/-- Claim C1: for every list of input file paths whose files all have the
`.txt` extension (and an empty list of links), `load_documents` produces
exactly one `Document` per file, in input order, whose text equals that
file's content. -/
theorem load_documents_txt_one_doc_per_file (env : LoadEnv) (paths : List String)
    (contents : String → String)
    (hext : ∀ p ∈ paths, extLower p = ".txt")
    (hfs : ∀ p ∈ paths, env.fs p = some (contents p)) :
    load_documents env paths [] =
      .ok (paths.map fun p =>
        { page_content := contents p, metadata := [("source", p)] }) := by
  simp [load_documents, loadFiles_txt env paths contents hext hfs, loadLinks]

/-- Loader environment for the concrete scenarios: one readable text file
`notes.txt` (and a second one `b.txt`), everything else failing. -/
def demoEnv : LoadEnv :=
  { fs := fun p =>
      if p == "notes.txt" then some "Paris is the capital of France."
      else if p == "b.txt" then some "B" else none,
    pdfLoad := fun _ => .error "pdf failure",
    webLoad := fun _ => .error "web failure" }

/-- Witness for C1 at the spec's own scenario: `["notes.txt"]` containing
"Paris is the capital of France." yields exactly that one document. -/
theorem load_documents_txt_one_doc_per_file_witness :
    load_documents demoEnv ["notes.txt"] [] =
      .ok [{ page_content := "Paris is the capital of France.",
             metadata := [("source", "notes.txt")] }] := by
  have h := load_documents_txt_one_doc_per_file demoEnv ["notes.txt"]
    (fun _ => "Paris is the capital of France.")
    (by intro p hp; simp at hp; subst hp; rfl)
    (by intro p hp; simp at hp; subst hp; rfl)
  simpa using h

/-- The dispatch skips exactly the unsupported extensions. -/
theorem loadPath_eq_none_of_not_supported (env : LoadEnv) (p : String)
    (h : supported p = false) : loadPath env p = none := by
  simp only [supported, Bool.or_eq_false_iff, beq_eq_false_iff_ne] at h
  simp [loadPath, h.1, h.2]

/-- Claim C2: `load_documents` silently drops every path whose lower-cased
extension is neither `.pdf` nor `.txt`: its output equals the output on the
same inputs with the unsupported paths filtered away, links untouched. -/
theorem load_documents_skips_unsupported (env : LoadEnv) (paths : List String)
    (links : List String) :
    load_documents env paths links =
      load_documents env (paths.filter supported) links := by
  have hfiles : loadFiles env paths = loadFiles env (paths.filter supported) := by
    induction paths with
    | nil => rfl
    | cons p ps ih =>
      by_cases h : supported p
      · rcases hq : loadPath env p with _ | r
        · simp [loadFiles, List.filter_cons, h, hq, ih]
        · simp [loadFiles, List.filter_cons, h, hq, ih]
      · have hn : supported p = false := by simpa using h
        simp [loadFiles, List.filter_cons, hn,
          loadPath_eq_none_of_not_supported env p hn, ih]
  simp [load_documents, hfiles]

/-- Counterexample for C3 as stated: a batch whose first file is unreadable
aborts with an error, even though the second file alone loads fine — the
failure is not isolated to the one input. -/
theorem load_documents_failure_aborts_batch :
    load_documents demoEnv ["a.txt", "b.txt"] [] = .error "file not found: a.txt" ∧
    load_documents demoEnv ["b.txt"] [] =
      .ok [{ page_content := "B", metadata := [("source", "b.txt")] }] := by
  constructor <;> rfl

/-- Claim C3 (amended): an error raised while loading any input — a file
parse or a web fetch — propagates out of `load_documents` unchanged and
aborts the batch: the inputs after the failing one are never processed and
no documents are returned.  The first part places the failure at a file
path (with arbitrary inputs after it); the second at a link, after the
files and the earlier links loaded fine. -/
theorem load_documents_error_propagates (env : LoadEnv) (e : String) :
    (∀ (pre : List String) (p : String) (post : List String)
        (links : List String) (ds : List Document),
      loadFiles env pre = .ok ds →
      loadPath env p = some (.error e) →
      load_documents env (pre ++ p :: post) links = .error e) ∧
    (∀ (paths : List String) (fds : List Document) (lpre : List String)
        (l : String) (lpost : List String) (lds : List Document),
      loadFiles env paths = .ok fds →
      loadLinks env lpre = .ok lds →
      env.webLoad l = .error e →
      load_documents env paths (lpre ++ l :: lpost) = .error e) := by
  constructor
  · intro pre p post links ds hpre hp
    have hfiles : ∀ pre0 (ds0 : List Document), loadFiles env pre0 = .ok ds0 →
        loadFiles env (pre0 ++ p :: post) = .error e := by
      intro pre0
      induction pre0 with
      | nil => intro ds0 _; simp [loadFiles, hp]
      | cons q qs ih =>
        intro ds0 h0
        rcases hq : loadPath env q with _ | r
        · simp only [loadFiles, hq] at h0 ⊢
          exact ih ds0 h0
        · rcases r with e1 | ds1
          · simp [loadFiles, hq] at h0
          · simp only [loadFiles, hq] at h0 ⊢
            rcases hrest : loadFiles env qs with e2 | rest
            · simp [hrest] at h0
            · simp [ih rest hrest]
    simp [load_documents, hfiles pre ds hpre]
  · intro paths fds lpre l lpost lds hpaths hlpre hl
    have hlinks : ∀ lpre0 (lds0 : List Document), loadLinks env lpre0 = .ok lds0 →
        loadLinks env (lpre0 ++ l :: lpost) = .error e := by
      intro lpre0
      induction lpre0 with
      | nil => intro lds0 _; simp [loadLinks, hl]
      | cons q qs ih =>
        intro lds0 h0
        rcases hq : env.webLoad q with e1 | ds1
        · simp [loadLinks, hq] at h0
        · simp only [loadLinks, hq] at h0 ⊢
          rcases hrest : loadLinks env qs with e2 | rest
          · simp [hrest] at h0
          · simp [ih rest hrest]
    simp [load_documents, hpaths, hlinks lpre lds hlpre]

/-- Loader environment for the failing-link scenario: the text files of
`demoEnv`, one fetchable link, every other fetch failing. -/
def c3WebEnv : LoadEnv :=
  { fs := demoEnv.fs,
    pdfLoad := fun _ => .error "pdf failure",
    webLoad := fun l =>
      if l == "http://ok.example" then
        .ok [{ page_content := "OK", metadata := [("source", l)] }]
      else .error ("fetch failed: " ++ l) }

/-- Witness for the amended C3 at both failure sites: with `b.txt` loading
fine before it, the missing `a.txt` aborts the whole batch; and with the
file and the first link loading fine, the failing second link aborts the
batch. -/
theorem load_documents_error_propagates_witness :
    load_documents demoEnv ["b.txt", "a.txt", "notes.txt"] [] =
      .error "file not found: a.txt" ∧
    load_documents c3WebEnv ["b.txt"] ["http://ok.example", "http://bad"] =
      .error "fetch failed: http://bad" := by
  constructor
  · exact (load_documents_error_propagates demoEnv "file not found: a.txt").1
      ["b.txt"] "a.txt" ["notes.txt"] []
      [{ page_content := "B", metadata := [("source", "b.txt")] }]
      (by rfl) (by rfl)
  · exact (load_documents_error_propagates c3WebEnv "fetch failed: http://bad").2
      ["b.txt"]
      [{ page_content := "B", metadata := [("source", "b.txt")] }]
      ["http://ok.example"] "http://bad" []
      [{ page_content := "OK", metadata := [("source", "http://ok.example")] }]
      (by rfl) (by rfl) (by rfl)

/-- Spec-side join: the texts concatenated in order, adjacent texts
separated by one copy of `sep`. -/
def joinSep (sep : String) : List String → String
  | [] => ""
  | [s] => s
  | s :: r :: rest => s ++ sep ++ joinSep sep (r :: rest)

/-- Spec-side reading of the context format: one blank line between
adjacent texts. -/
def joinBlankLine (l : List String) : String :=
  joinSep "\n\n" l

/-- Prepending onto the head of a separated join distributes. -/
theorem joinSep_append_head (sep a b : String) (xs : List String) :
    joinSep sep ((a ++ b) :: xs) = a ++ joinSep sep (b :: xs) := by
  cases xs with
  | nil => rfl
  | cons y ys => simp [joinSep, String.append_assoc]

/-- The accumulator loop of `String.intercalate` computes the separated
join of the accumulator followed by the remaining pieces. -/
theorem intercalate_go_eq_joinSep (s : String) :
    ∀ (as : List String) (acc : String),
      String.intercalate.go acc s as = joinSep s (acc :: as) := by
  intro as
  induction as with
  | nil => intro acc; rfl
  | cons x xs ih =>
    intro acc
    have h1 : String.intercalate.go acc s (x :: xs) =
        String.intercalate.go (acc ++ s ++ x) s xs := rfl
    rw [h1, ih (acc ++ s ++ x)]
    have h2 : acc ++ s ++ x = (acc ++ s) ++ x := rfl
    rw [h2, joinSep_append_head]
    cases xs with
    | nil => rfl
    | cons y ys => simp [joinSep, String.append_assoc]

/-- Python `"\n\n".join(l)` equals the spec-side blank-line join. -/
theorem intercalate_eq_joinBlankLine (l : List String) :
    String.intercalate "\n\n" l = joinBlankLine l := by
  cases l with
  | nil => rfl
  | cons a as =>
    have h : String.intercalate "\n\n" (a :: as) =
        String.intercalate.go a "\n\n" as := rfl
    rw [h, intercalate_go_eq_joinSep]
    rfl

/-- Length of the blank-line join: the sum of the lengths plus two
characters for each of the `n - 1` separators — nothing is dropped. -/
theorem joinBlankLine_length : ∀ l : List String,
    (joinBlankLine l).length = (l.map String.length).sum + 2 * (l.length - 1) := by
  intro l
  induction l with
  | nil => rfl
  | cons s rest ih =>
    cases rest with
    | nil => simp [joinBlankLine, joinSep]
    | cons r rs =>
      simp only [joinBlankLine, joinSep, String.length_append] at ih ⊢
      simp only [List.map_cons, List.sum_cons, List.length_cons] at ih ⊢
      have hsep : ("\n\n" : String).length = 2 := rfl
      rw [hsep]
      omega

/-- Claim C4: for every query and every retriever, the context string that
`answer_with_rag` builds (and returns verbatim for the Google chat model) is
the `page_content` of the retrieved documents, in retrieval order, separated
by exactly one blank line, with no truncation: its length is the full sum of
the text lengths plus two characters per separator. -/
theorem answer_with_rag_context_format (qaRun : LLM → Retriever → String → String)
    (retriever : Retriever) (query : String) :
    answer_with_rag qaRun query retriever (some LLM.chatGoogleGenerativeAI) =
      joinBlankLine ((retriever query).map Document.page_content) ∧
    rag_context retriever query =
      joinBlankLine ((retriever query).map Document.page_content) ∧
    (rag_context retriever query).length =
      (((retriever query).map Document.page_content).map String.length).sum
        + 2 * ((retriever query).length - 1) := by
  have hctx : rag_context retriever query =
      joinBlankLine ((retriever query).map Document.page_content) := by
    unfold rag_context
    exact intercalate_eq_joinBlankLine _
  refine ⟨hctx, hctx, ?_⟩
  rw [hctx, joinBlankLine_length]
  simp

/-- Claim C5: `answer_with_rag` branches on the model's identity: a
`ChatGoogleGenerativeAI` llm gets the raw concatenated context back; every
other llm (including the `OpenAI(temperature=0)` default taken when none is
supplied) goes through the `RetrievalQA` chain, whose answer on the query is
returned. -/
theorem answer_with_rag_model_branch (qaRun : LLM → Retriever → String → String)
    (retriever : Retriever) (query : String) :
    answer_with_rag qaRun query retriever (some LLM.chatGoogleGenerativeAI) =
      rag_context retriever query ∧
    (∀ t : Int, answer_with_rag qaRun query retriever (some (LLM.openAI t)) =
      qaRun (LLM.openAI t) retriever query) ∧
    (∀ s : String, answer_with_rag qaRun query retriever (some (LLM.other s)) =
      qaRun (LLM.other s) retriever query) ∧
    answer_with_rag qaRun query retriever none =
      qaRun (LLM.openAI 0) retriever query := by
  exact ⟨rfl, fun _ => rfl, fun _ => rfl, rfl⟩

/-- Squared distance of a vector to itself is zero. -/
theorem dist2_self (v : List Int) : dist2 v v = 0 := by
  induction v with
  | nil => rfl
  | cons a as ih =>
    have hz : (a - a) * (a - a) = 0 := by ring
    simp only [dist2, List.zipWith, List.sum_cons, hz, zero_add] at ih ⊢
    exact ih

/-- Squared distance is nonnegative. -/
theorem dist2_nonneg (u v : List Int) : 0 ≤ dist2 u v := by
  induction u generalizing v with
  | nil => simp [dist2]
  | cons a as ih =>
    cases v with
    | nil => simp [dist2]
    | cons b bs =>
      simp only [dist2, List.zipWith, List.sum_cons]
      have h1 : 0 ≤ (a - b) * (a - b) := mul_self_nonneg _
      have h2 : 0 ≤ dist2 as bs := ih bs
      simp only [dist2] at h2
      omega

/-- Claim C6: building an index from a document set uses the embeddings
model `"models/embedding-001"`; saving it and reloading the directory uses
the identical model and restores the same entries; and querying the
reloaded index's retriever with a stored document's own text returns that
document as the top-1 result (provided no other stored document embeds at
distance zero from it). -/
theorem faiss_round_trip (env : EmbedEnv) (disk : Disk) (dir : String)
    (docs : List Document) (target : Document)
    (hmem : target ∈ docs)
    (hsep : ∀ d ∈ docs, d ≠ target →
      dist2 (env.googleEmbed "models/embedding-001" target.page_content)
            (env.googleEmbed "models/embedding-001" d.page_content) ≠ 0) :
    (create_faiss_index env docs).embeddings.model = "models/embedding-001" ∧
    ∃ idx,
      load_faiss_index
        ((save_faiss_index disk (create_faiss_index env docs) dir).1) dir = some idx ∧
      idx.embeddings.model = "models/embedding-001" ∧
      idx.entries = (create_faiss_index env docs).entries ∧
      (get_retriever env idx target.page_content).head? = some target := by
  refine ⟨rfl, FAISSIndex.mk (GoogleGenerativeAIEmbeddings.mk "models/embedding-001")
      (create_faiss_index env docs).entries, ?_, rfl, rfl, ?_⟩
  · simp [save_faiss_index, load_faiss_index]
  · set qv := env.googleEmbed "models/embedding-001" target.page_content with hqv
    set entries := docs.map
      (fun d => (env.googleEmbed "models/embedding-001" d.page_content, d)) with hent
    set r := fun a b : List Int × Document => dist2 qv a.1 ≤ dist2 qv b.1 with hr
    haveI hTotal : IsTotal (List Int × Document) r :=
      ⟨fun a b => le_total (dist2 qv a.1) (dist2 qv b.1)⟩
    haveI hTrans : IsTrans (List Int × Document) r :=
      ⟨fun a b c hab hbc => le_trans hab hbc⟩
    show (((List.insertionSort r entries).take 4).map (fun e => e.2)).head? = some target
    have htmem : (qv, target) ∈ entries := by
      rw [hent]
      exact List.mem_map.mpr ⟨target, hmem, rfl⟩
    have hsne : List.insertionSort r entries ≠ [] := by
      intro h
      have hperm := List.perm_insertionSort r entries
      rw [h] at hperm
      rw [hperm.symm.eq_nil] at htmem
      exact List.not_mem_nil _ htmem
    rcases hs : List.insertionSort r entries with _ | ⟨h, t⟩
    · exact absurd hs hsne
    · have hperm := List.perm_insertionSort r entries
      rw [hs] at hperm
      have hsorted := List.sorted_insertionSort r entries
      rw [hs] at hsorted
      have hall := (List.sorted_cons.mp hsorted).1
      have hin : (qv, target) ∈ h :: t := hperm.mem_iff.mpr htmem
      have hle : dist2 qv h.1 ≤ 0 := by
        rcases List.mem_cons.mp hin with heq | hint
        · rw [← heq]
          simp [dist2_self]
        · have := hall _ hint
          rw [hr] at this
          simpa [dist2_self] using this
      have h0 : dist2 qv h.1 = 0 := le_antisymm hle (dist2_nonneg qv h.1)
      have hmemh : h ∈ entries := hperm.subset (List.mem_cons_self h t)
      rw [hent] at hmemh
      rcases List.mem_map.mp hmemh with ⟨d, hd, hfd⟩
      have h2 : h.2 = target := by
        by_cases hdt : d = target
        · rw [← hfd, hdt]
        · exfalso
          apply hsep d hd hdt
          rw [← hfd] at h0
          exact h0
      simp [h2]

/-- Embedding environment for the concrete round-trip scenario: the vector
of a text is its length, so the two demo documents embed apart. -/
def c6Env : EmbedEnv :=
  { googleEmbed := fun _ s => [Int.ofNat s.length] }

/-- Two documents with texts of different lengths. -/
def c6Docs : List Document :=
  [{ page_content := "ab", metadata := [] },
   { page_content := "wxyz", metadata := [] }]

/-- The stored document queried for in the round-trip scenario. -/
def c6Target : Document :=
  { page_content := "ab", metadata := [] }

/-- Witness for C6: building, saving and reloading the two-document index
and querying with the first document's own text returns that document. -/
theorem faiss_round_trip_witness :
    (create_faiss_index c6Env c6Docs).embeddings.model = "models/embedding-001" ∧
    ∃ idx,
      load_faiss_index
        ((save_faiss_index (fun _ => none) (create_faiss_index c6Env c6Docs)
          "faiss_index").1) "faiss_index" = some idx ∧
      idx.embeddings.model = "models/embedding-001" ∧
      idx.entries = (create_faiss_index c6Env c6Docs).entries ∧
      (get_retriever c6Env idx c6Target.page_content).head? = some c6Target :=
  faiss_round_trip c6Env (fun _ => none) "faiss_index" c6Docs c6Target
    (by decide) (by decide)

/-- Spec-side list of the substrings that make the validator classify a
failure as an authentication failure. -/
def auth_patterns : List String :=
  ["auth", "api key", "apikey", "credential", "permission"]

/-- Claim C9: `validate_api_key` answers `(true, "API key is valid")` on a
successful test call; on an exception it answers the authentication-failure
message exactly when the lower-cased error text contains one of the five
auth substrings, and otherwise a connection-error message carrying the
error text. -/
theorem validate_api_key_classification (testCall : Except String Unit) :
    validate_api_key testCall =
      match testCall with
      | .ok _ => (true, "API key is valid")
      | .error e =>
        if ∃ p ∈ auth_patterns, strContains (pyLower e) p = true then
          (false, "Invalid API key - Authentication failed")
        else (false, "API connection error: " ++ e) := by
  cases testCall with
  | ok u => rfl
  | error e =>
    have hiff : (strContains (pyLower e) "auth" || strContains (pyLower e) "api key" ||
        strContains (pyLower e) "apikey" || strContains (pyLower e) "credential" ||
        strContains (pyLower e) "permission") = true ↔
        ∃ p ∈ auth_patterns, strContains (pyLower e) p = true := by
      simp only [auth_patterns, List.mem_cons, List.not_mem_nil, or_false,
        exists_eq_or_imp, exists_eq_left, Bool.or_eq_true]
      tauto
    simp only [validate_api_key]
    split_ifs with h1 h2 h2
    · rfl
    · exact absurd (hiff.mp h1) h2
    · exact absurd (hiff.mpr h2) h1
    · rfl

/-- Claim C10: once the stored message list has reached `MAX_MESSAGES`
(100) entries, `check_message_limit` resets it to the single-element list
holding the first stored message (or the default greeting when the list is
empty) and returns `true`; on any shorter list it leaves the messages
unchanged and returns `false`. -/
theorem check_message_limit_claim (messages : List ChatMsg) :
    (MAX_MESSAGES ≤ messages.length →
      check_message_limit messages = ([messages.headD default_greeting], true)) ∧
    (messages.length < MAX_MESSAGES →
      check_message_limit messages = (messages, false)) := by
  constructor
  · intro h
    simp [check_message_limit, h]
  · intro h
    simp [check_message_limit, Nat.not_le.mpr h]

/-- Witness for C10 on both sides of the limit: a list of exactly 100
messages is reset to its first entry with `true`; a one-message list is
untouched with `false`. -/
theorem check_message_limit_witness :
    check_message_limit (List.replicate 100 default_greeting) =
      ([default_greeting], true) ∧
    check_message_limit [default_greeting] = ([default_greeting], false) := by
  constructor
  · have h := (check_message_limit_claim (List.replicate 100 default_greeting)).1
      (by simp [MAX_MESSAGES])
    simpa [List.replicate_succ] using h
  · exact (check_message_limit_claim [default_greeting]).2 (by simp [MAX_MESSAGES])

/-- Spec-side description of the non-grounded answer path: append the user
prompt, stream the model over only the immediate recent conversation turns
(the last two messages), no retrieval involved, then store the reply and
apply the message limit. -/
def nonGroundedTurn (llmStream : List LCMessage → StreamOut)
    (messages : List ChatMsg) (prompt : String) : Except String HandlerResult :=
  let messages1 := messages ++ [{ role := Role.user, content := prompt }]
  let out := llmStream ((pyLastTwo messages1).map toLCMessage)
  match out.error with
  | some e => .error e
  | none =>
    let full := String.join out.chunks
    .ok { full_response := full, errors := [],
          messages := (check_message_limit
            (messages1 ++ [{ role := Role.assistant, content := full }])).1 }

/-- Claim C7: when the index directory does not exist, `load_faiss_index`
returns `None`, the session-start code installs no retriever, and the
handler for a submitted question takes the non-grounded path built only
from the immediate recent conversation turns. -/
theorem missing_index_falls_back (env : EmbedEnv) (disk : Disk) (dir : String)
    (answerRag : String → Retriever → Except String String)
    (llmStream : List LCMessage → StreamOut)
    (st : SessionState) (prompt : String)
    (hdisk : disk dir = none)
    (hret : st.retriever = none) :
    load_faiss_index disk dir = none ∧
    install_retriever env disk dir st = st ∧
    chat_input_handler answerRag llmStream st prompt =
      nonGroundedTurn llmStream st.messages prompt := by
  refine ⟨?_, ?_, ?_⟩
  · simp [load_faiss_index, hdisk]
  · simp [install_retriever, hdisk]
  · simp only [chat_input_handler, hret, nonGroundedTurn]
    cases st.use_rag <;> rfl

/-- Session state with no retriever, for the concrete missing-index
scenario. -/
def c7State : SessionState :=
  { use_rag := true, retriever := none, messages := [default_greeting] }

/-- Streaming model for the missing-index scenario: a fixed successful
reply. -/
def c7Stream : List LCMessage → StreamOut :=
  fun _ => { chunks := ["fallback reply"], error := none }

/-- Witness for C7 at a concrete empty disk and retriever-less session. -/
theorem missing_index_falls_back_witness :
    load_faiss_index (fun _ => none) "faiss_index" = none ∧
    install_retriever c6Env (fun _ => none) "faiss_index" c7State = c7State ∧
    chat_input_handler (fun _ _ => .error "unused") c7Stream c7State "Hi" =
      nonGroundedTurn c7Stream c7State.messages "Hi" :=
  missing_index_falls_back c6Env (fun _ => none) "faiss_index"
    (fun _ _ => .error "unused") c7Stream c7State "Hi" rfl rfl

/-- Claim C8 (amended): an exception anywhere in the RAG answer path is
caught at the call site and reported as an error, and a streaming fallback
from the last two conversation turns is attempted; the partial response
collected before the failure is kept as a prefix of the final answer rather
than discarded. -/
theorem rag_error_reported_and_fallback
    (answerRag : String → Retriever → Except String String)
    (llmStream : List LCMessage → StreamOut)
    (st : SessionState) (prompt : String) (retriever : Retriever)
    (e partialResp : String)
    (hrag : st.use_rag = true)
    (hret : st.retriever = some retriever)
    (htry : rag_try answerRag llmStream retriever prompt = .error (e, partialResp))
    (hfb : (llmStream ((pyLastTwo (st.messages
        ++ [{ role := Role.user, content := prompt }])).map toLCMessage)).error = none) :
    chat_input_handler answerRag llmStream st prompt =
      .ok { full_response := partialResp ++ String.join
              (llmStream ((pyLastTwo (st.messages
                ++ [{ role := Role.user, content := prompt }])).map toLCMessage)).chunks,
            errors := ["Error using RAG: " ++ e],
            messages := (check_message_limit
              ((st.messages ++ [{ role := Role.user, content := prompt }])
                ++ [{ role := Role.assistant,
                      content := partialResp ++ String.join
                        (llmStream ((pyLastTwo (st.messages
                          ++ [{ role := Role.user, content := prompt }])).map
                            toLCMessage)).chunks }])).1 } := by
  simp only [chat_input_handler, hrag, hret, htry, hfb]

/-- Answer-composer stub for the C8 scenario: retrieval itself succeeds. -/
def c8AnswerRag : String → Retriever → Except String String :=
  fun _ _ => .ok "CTX"

/-- Streaming model for the C8 scenario: the single-message RAG prompt call
yields "AB" and then raises; the two-message fallback call yields "C". -/
def c8Stream : List LCMessage → StreamOut :=
  fun msgs =>
    match msgs with
    | [_] => { chunks := ["AB"], error := some "boom" }
    | _ => { chunks := ["C"], error := none }

/-- Session state for the C8 scenario: RAG enabled with a trivial
retriever. -/
def c8State : SessionState :=
  { use_rag := true,
    retriever := some (fun _ => ([] : List Document)),
    messages := [default_greeting] }

/-- Counterexample for C8 as stated: when streaming fails after the partial
response "AB", the fallback answer "C" is appended to it — the stored reply
is "ABC", so the partial response is kept, not discarded (and the fallback
itself streams). -/
theorem rag_partial_response_kept :
    chat_input_handler c8AnswerRag c8Stream c8State "hi" =
      .ok { full_response := "ABC",
            errors := ["Error using RAG: boom"],
            messages := [default_greeting,
              { role := Role.user, content := "hi" },
              { role := Role.assistant, content := "ABC" }] } ∧
    ("ABC" : String) ≠ "C" := by
  exact ⟨rfl, by decide⟩

/-- Witness for the amended C8: in the same scenario the handler reports the
error and returns the partial-plus-fallback reply. -/
theorem rag_error_reported_and_fallback_witness :
    chat_input_handler c8AnswerRag c8Stream c8State "hola" =
      .ok { full_response := "AB" ++ String.join
              (c8Stream ((pyLastTwo (c8State.messages
                ++ [{ role := Role.user, content := "hola" }])).map toLCMessage)).chunks,
            errors := ["Error using RAG: boom"],
            messages := (check_message_limit
              ((c8State.messages ++ [{ role := Role.user, content := "hola" }])
                ++ [{ role := Role.assistant,
                      content := "AB" ++ String.join
                        (c8Stream ((pyLastTwo (c8State.messages
                          ++ [{ role := Role.user, content := "hola" }])).map
                            toLCMessage)).chunks }])).1 } :=
  rag_error_reported_and_fallback c8AnswerRag c8Stream c8State "hola"
    (fun _ => ([] : List Document)) "boom" "AB" rfl rfl rfl rfl




